import Mathlib

/-!
Verification of the message-relay bot (`src/resourceful_bot.py`).

The program is a single per-event handler `handle_message` that
1. drops events whose `bot_id` field is truthy, or whose channel is not in
   the static `CHANNELS` mapping;
2. best-effort adds an hourglass reaction;
3. POSTs `{channel_id, message_text}` to a webhook once, with a timeout;
4. on HTTP 200 parses the JSON body, posts the `response` field (or a
   fallback string), then best-effort swaps the hourglass for a checkmark;
5. on non-200, timeout, or any other exception posts an error message.

We embed the handler shallowly: the external world (webhook outcome, the
success of each Slack API call) is an `Env` oracle, and the handler returns
the list of externally visible effects it performed together with whether
an exception escaped it.
-/

/-- An externally visible effect of one handler run, in program order.
`posted` records a successfully delivered `say` call; reaction effects
record attempted Slack reaction API calls; `webhookPost` records the
single `requests.post` to the webhook. -/
inductive Effect where
  | reactionAdd (channel ts name : String)
  | reactionRemove (channel ts name : String)
  | webhookPost (channel_id message_text : String)
  | posted (text : String)
  | logInfo (msg : String)
  | logError (msg : String)
  deriving DecidableEq, Repr

/-- Result of `response.json()` followed by dictionary access, as the Python
code experiences it: the body may fail to parse (raising `ValueError`), may
parse to a non-dict value (so `.get` raises `AttributeError`), or may be a
JSON object, modelled as a string-valued association list. The `detail`
strings carry `str(e)` of the raised exception. -/
inductive JsonBody where
  | malformed (detail : String)
  | notDict (detail : String)
  | dict (entries : List (String × String))
  deriving DecidableEq, Repr

/-- Outcome of the single `requests.post` call: a timeout
(`requests.exceptions.Timeout`), some other transport-level exception with
`str(e) = detail`, or an HTTP response with a status code, a body (as seen
through `response.json()`) and the raw text (`response.text`). -/
inductive WebhookOutcome where
  | timeout
  | transportError (detail : String)
  | response (status : Nat) (body : JsonBody) (raw : String)
  deriving DecidableEq, Repr

/-- An inbound Slack message event, with the fields `handle_message` reads.
`bot_id`, `channel` and `text` are read with `.get` and so may be absent;
`ts` is read with indexing and is modelled as present. -/
structure Event where
  bot_id : Option String
  channel : Option String
  text : Option String
  ts : String
  deriving DecidableEq, Repr

/-- The environment oracle for one handler run: the outcome of the webhook
call, whether each reaction API call succeeds, and whether the n-th `say`
call of the run succeeds (`sayOk n`) together with the exception text it
raises when it fails (`sayErr n`). -/
structure Env where
  addHourglassOk : Bool
  addHourglassErr : String
  webhook : WebhookOutcome
  sayOk : Nat → Bool
  sayErr : Nat → String
  removeHourglassOk : Bool
  addCheckOk : Bool

/-- Whether the handler returned normally or let an exception escape. -/
inductive HandlerResult where
  | ok
  | raised (msg : String)
  deriving DecidableEq, Repr

/-- Python truthiness of `event.get("bot_id")`: an absent key gives `None`
(falsy) and an empty string is falsy, so the guard fires exactly when the
field is present and non-empty. -/
def truthy : Option String → Bool
  | none => false
  | some s => s ≠ ""

/-- Association-list lookup, modelling Python dict lookup for the channel
mapping and for `data.get`. -/
def lookupAssoc : List (String × String) → String → Option String
  | [], _ => none
  | (k, v) :: rest, key => if k = key then some v else lookupAssoc rest key

/-- The static channel mapping from the source. -/
def CHANNELS : List (String × String) :=
  [("C09NEFLB30C", "vision-agent"),
   ("C09NEFNNXD2", "strategy-agent"),
   ("C09NAV7HT26", "testing-agent"),
   ("C09PA0D1ED6", "matching-agent"),
   ("C09NA0DUTRC", "scheduler-agent"),
   ("C09PGG5L7AL", "nick-clarity"),
   ("C09N6NVDWKH", "jordan-clarity")]

/-- The fallback reply used when the 200 body has no `response` key. -/
def fallbackReply : String := "Sorry, no response from AI."

/-- The body of `handle_message` after the filter has passed: the hourglass
annotation attempt, the single webhook POST, and the try/except resolution,
mirroring lines 70-130 of the source. Effects are listed in program order;
a `say` call that fails produces no `posted` effect and raises, and an
exception raised inside the outer `try` is caught by the matching `except`
branch, while one raised inside an `except` branch escapes the handler. -/
def handleTracked (channel_id channel_name message_text ts : String)
    (env : Env) : HandlerResult × List Effect :=
  let pre : List Effect :=
    [.logInfo ("Message in #" ++ channel_name ++ ": "
        ++ message_text.take 50 ++ "...")]
    ++ [.reactionAdd channel_id ts "hourglass_flowing_sand"]
    ++ (if env.addHourglassOk then []
        else [.logError ("Could not add reaction: " ++ env.addHourglassErr)])
    ++ [.webhookPost channel_id message_text]
  match env.webhook with
  | .timeout =>
      if env.sayOk 0 then
        (.ok, pre ++ [.posted "⏰ Request timed out - Gumloop took too long. Try again?",
                      .logError "Gumloop timeout"])
      else
        (.raised (env.sayErr 0), pre)
  | .transportError d =>
      if env.sayOk 0 then
        (.ok, pre ++ [.posted ("❌ Error connecting to AI: " ++ d),
                      .logError ("Exception: " ++ d)])
      else
        (.raised (env.sayErr 0), pre)
  | .response status body raw =>
      if status = 200 then
        match body with
        | .malformed d =>
            if env.sayOk 0 then
              (.ok, pre ++ [.posted ("❌ Error connecting to AI: " ++ d),
                            .logError ("Exception: " ++ d)])
            else
              (.raised (env.sayErr 0), pre)
        | .notDict d =>
            if env.sayOk 0 then
              (.ok, pre ++ [.posted ("❌ Error connecting to AI: " ++ d),
                            .logError ("Exception: " ++ d)])
            else
              (.raised (env.sayErr 0), pre)
        | .dict entries =>
            let ai_response := (lookupAssoc entries "response").getD fallbackReply
            if env.sayOk 0 then
              let cleanup : List Effect :=
                if env.removeHourglassOk then
                  [.reactionRemove channel_id ts "hourglass_flowing_sand",
                   .reactionAdd channel_id ts "white_check_mark"]
                else
                  [.reactionRemove channel_id ts "hourglass_flowing_sand"]
              (.ok, pre ++ [.posted ai_response] ++ cleanup
                    ++ [.logInfo ("✅ Response sent to #" ++ channel_name)])
            else
              if env.sayOk 1 then
                (.ok, pre ++ [.posted ("❌ Error connecting to AI: " ++ env.sayErr 0),
                              .logError ("Exception: " ++ env.sayErr 0)])
              else
                (.raised (env.sayErr 1), pre)
      else
        if env.sayOk 0 then
          (.ok, pre ++ [.posted ("⚠️ Gumloop returned error: " ++ toString status),
                        .logError ("Gumloop error: " ++ raw)])
        else
          if env.sayOk 1 then
            (.ok, pre ++ [.posted ("❌ Error connecting to AI: " ++ env.sayErr 0),
                          .logError ("Exception: " ++ env.sayErr 0)])
          else
            (.raised (env.sayErr 1), pre)

/-- The full handler, lines 59-130 of the source: drop truthy-`bot_id`
events, default a missing `text` to `""`, drop events whose channel is not
a key of `CHANNELS`, then run the tracked body. -/
def handle_message (channels : List (String × String)) (event : Event)
    (env : Env) : HandlerResult × List Effect :=
  if truthy event.bot_id then (.ok, [])
  else
    let message_text := (event.text).getD ""
    match event.channel with
    | none => (.ok, [])
    | some channel_id =>
        match lookupAssoc channels channel_id with
        | none => (.ok, [])
        | some channel_name =>
            handleTracked channel_id channel_name message_text event.ts env

/-- The code's filter: `bot_id` falsy and channel present in the mapping. -/
def passesFilter (channels : List (String × String)) (e : Event) : Bool :=
  !truthy e.bot_id &&
    (match e.channel with
     | none => false
     | some ch => (lookupAssoc channels ch).isSome)

/-- The webhook POSTs recorded in a trace, as (channel_id, message_text). -/
def webhookPosts (tr : List Effect) : List (String × String) :=
  tr.filterMap fun e =>
    match e with
    | .webhookPost c m => some (c, m)
    | _ => none

/-- The texts of messages successfully posted to the channel in a trace. -/
def postedMessages (tr : List Effect) : List String :=
  tr.filterMap fun e =>
    match e with
    | .posted m => some m
    | _ => none

/-- Number of attempted reaction-removal API calls in a trace. -/
def removeAttempts (tr : List Effect) : Nat :=
  tr.countP fun e =>
    match e with
    | .reactionRemove _ _ _ => true
    | _ => false

/-- Number of attempted checkmark reaction-add API calls in a trace. -/
def checkmarkAttempts (tr : List Effect) : Nat :=
  tr.countP fun e =>
    match e with
    | .reactionAdd _ _ n => n == "white_check_mark"
    | _ => false

/-- Number of attempted hourglass reaction-add API calls in a trace. -/
def hourglassAttempts (tr : List Effect) : Nat :=
  tr.countP fun e =>
    match e with
    | .reactionAdd _ _ n => n == "hourglass_flowing_sand"
    | _ => false

/-- Whether the environment makes the mandatory forward-and-reply flow
fail: a timeout, a transport error, a non-200 status, an unusable 200 body,
or a failure of the reply-posting `say` itself. -/
def isForwardReplyFailure (env : Env) : Bool :=
  match env.webhook with
  | .timeout => true
  | .transportError _ => true
  | .response status body _ =>
      if status = 200 then
        match body with
        | .malformed _ => true
        | .notDict _ => true
        | .dict _ => !env.sayOk 0
      else true

/-- Whether the `say` call that reports the failure succeeds: it is the
second `say` of the run when the first `say` (the reply post) is what
failed, and the first otherwise. -/
def errorSayOk (env : Env) : Bool :=
  match env.webhook with
  | .response status body _ =>
      if status = 200 then
        match body with
        | .dict _ => env.sayOk 1
        | _ => env.sayOk 0
      else env.sayOk 0
  | _ => env.sayOk 0

/-! ### Concrete fixtures used to instantiate the theorems -/

/-- A plain user message in the first tracked channel. -/
def evOk : Event :=
  { bot_id := none, channel := some "C09NEFLB30C", text := some "hi",
    ts := "1700000000.000100" }

/-- A user message with no `text` field, in a tracked channel. -/
def evNoText : Event :=
  { bot_id := none, channel := some "C09NAV7HT26", text := none, ts := "2.0" }

/-- A bot-originated message (non-empty `bot_id`) in a tracked channel. -/
def evBot : Event :=
  { bot_id := some "B07ABCDEF", channel := some "C09NEFLB30C", text := some "hi",
    ts := "3.0" }

/-- A message whose `bot_id` field is present but empty, hence falsy for the
Python guard `if event.get("bot_id"):`. -/
def evBotEmpty : Event :=
  { bot_id := some "", channel := some "C09NEFLB30C", text := some "loop",
    ts := "4.0" }

/-- A message from a channel that is not in the mapping. -/
def evUntracked : Event :=
  { bot_id := none, channel := some "C0UNTRACKED", text := some "hi", ts := "5.0" }

/-- An environment in which every external call succeeds. -/
def envAllOk (w : WebhookOutcome) : Env :=
  { addHourglassOk := true, addHourglassErr := "", webhook := w,
    sayOk := fun _ => true, sayErr := fun _ => "",
    removeHourglassOk := true, addCheckOk := true }

/-- An environment in which only the hourglass-removal call fails. -/
def envRemoveFails (w : WebhookOutcome) : Env :=
  { addHourglassOk := true, addHourglassErr := "", webhook := w,
    sayOk := fun _ => true, sayErr := fun _ => "",
    removeHourglassOk := false, addCheckOk := true }

/-- An environment in which every reaction call fails. -/
def envAnnotFail (w : WebhookOutcome) : Env :=
  { addHourglassOk := false, addHourglassErr := "missing_scope", webhook := w,
    sayOk := fun _ => true, sayErr := fun _ => "",
    removeHourglassOk := false, addCheckOk := false }

/-- An environment in which every `say` call fails. -/
def envSayFails (w : WebhookOutcome) : Env :=
  { addHourglassOk := true, addHourglassErr := "", webhook := w,
    sayOk := fun _ => false, sayErr := fun _ => "slack api down",
    removeHourglassOk := true, addCheckOk := true }

/-- A 200 webhook response whose body is the object with response "hello". -/
def helloBody : WebhookOutcome :=
  .response 200 (.dict [("response", "hello")]) ""

/-! ### Helper lemmas -/

/-- Unpacking the code filter: a passing event has a falsy `bot_id` and a
channel that is a key of the mapping. -/
lemma passesFilter_elim (e : Event) (h : passesFilter CHANNELS e = true) :
    truthy e.bot_id = false ∧
      ∃ ch nm, e.channel = some ch ∧ lookupAssoc CHANNELS ch = some nm := by
  unfold passesFilter at h
  rw [Bool.and_eq_true] at h
  obtain ⟨h1, h2⟩ := h
  refine ⟨by simpa using h1, ?_⟩
  match hch : e.channel with
  | none => rw [hch] at h2; simp at h2
  | some ch =>
      rw [hch] at h2
      obtain ⟨nm, hnm⟩ := Option.isSome_iff_exists.mp h2
      exact ⟨ch, nm, rfl, hnm⟩

/-- On an event that passes the filter, `handle_message` runs the tracked
body with the event's fields. -/
lemma handle_message_eq_tracked (e : Event) (env : Env) (ch nm : String)
    (hb : truthy e.bot_id = false) (hch : e.channel = some ch)
    (hnm : lookupAssoc CHANNELS ch = some nm) :
    handle_message CHANNELS e env
      = handleTracked ch nm ((e.text).getD "") e.ts env := by
  simp [handle_message, hb, hch, hnm]

/-- Whatever the environment does, the tracked body issues exactly one
webhook POST, carrying the channel id and the message text. -/
lemma webhookPosts_handleTracked (ch nm mt ts : String) (env : Env) :
    webhookPosts (handleTracked ch nm mt ts env).2 = [(ch, mt)] := by
  rcases env with ⟨ah, ahe, w, so, se, rh, ac⟩
  cases w with
  | timeout =>
      cases h0 : so 0 <;>
        simp [handleTracked, webhookPosts, h0, List.filterMap_append]
  | transportError d =>
      cases h0 : so 0 <;>
        simp [handleTracked, webhookPosts, h0, List.filterMap_append]
  | response s b r =>
      by_cases hs : s = 200 <;>
        cases b <;>
          cases h0 : so 0 <;> cases h1 : so 1 <;> cases hrh : rh <;>
            simp [handleTracked, webhookPosts, hs, h0, h1, hrh,
              List.filterMap_append]

/-- The generic connection-error message never coincides with the fallback
reply, whatever the error detail. -/
lemma generic_ne_fallback (d : String) :
    "❌ Error connecting to AI: " ++ d ≠ "Sorry, no response from AI." := by
  intro h
  have h2 : "❌ Error connecting to AI: ".data ++ d.data
      = "Sorry, no response from AI.".data := by
    rw [← String.data_append, h]
  have h3 : "❌ Error connecting to AI: ".data
      = '❌' :: " Error connecting to AI: ".data := by decide
  have h4 : "Sorry, no response from AI.".data
      = 'S' :: "orry, no response from AI.".data := by decide
  rw [h3, h4, List.cons_append] at h2
  exact absurd (List.head_eq_of_cons_eq h2) (by decide)

/-! ### Claim theorems -/

/-- Claim C1: for every inbound message event that passes the filter,
exactly one webhook request is issued - a single HTTP POST, no retries,
whatever the environment does - and its `channel_id` and `message_text`
fields equal the event's `channel` and `text` fields. -/
theorem c1_single_webhook_request (e : Event) (env : Env) (ch t : String)
    (hf : passesFilter CHANNELS e = true)
    (hch : e.channel = some ch) (ht : e.text = some t) :
    webhookPosts (handle_message CHANNELS e env).2 = [(ch, t)] := by
  obtain ⟨hb, ch', nm, hch', hnm⟩ := passesFilter_elim e hf
  rw [hch] at hch'
  obtain rfl := Option.some.inj hch'
  rw [handle_message_eq_tracked e env ch nm hb hch hnm, ht]
  exact webhookPosts_handleTracked ch nm t e.ts env

/-- Witness for C1 at a concrete event and environment. -/
theorem c1_single_webhook_request_witness :
    passesFilter CHANNELS evOk = true ∧
    evOk.channel = some "C09NEFLB30C" ∧ evOk.text = some "hi" ∧
    webhookPosts (handle_message CHANNELS evOk (envAllOk .timeout)).2
      = [("C09NEFLB30C", "hi")] :=
  ⟨by decide, rfl, rfl,
    c1_single_webhook_request evOk (envAllOk .timeout) "C09NEFLB30C" "hi"
      (by decide) rfl rfl⟩

/-- Claim C2, counterexample: an event whose `bot_id` field is present (the
empty string) is NOT filtered out - the handler posts to the webhook and
attempts the hourglass reaction, because the Python guard tests truthiness,
not presence. -/
theorem c2_bot_event_counterexample :
    evBotEmpty.bot_id = some "" ∧
    webhookPosts (handle_message CHANNELS evBotEmpty (envAllOk .timeout)).2
      = [("C09NEFLB30C", "loop")] ∧
    hourglassAttempts (handle_message CHANNELS evBotEmpty (envAllOk .timeout)).2
      = 1 := by
  refine ⟨rfl, by decide, by decide⟩

/-- Claim C2 (amended): for every event whose `bot_id` is present AND
non-empty (truthy), or whose channel is absent from the registry, the
handler returns normally with no external effect at all. -/
theorem c2_filtered_events_no_effects (e : Event) (env : Env)
    (h : truthy e.bot_id = true ∨
      ∀ ch, e.channel = some ch → lookupAssoc CHANNELS ch = none) :
    handle_message CHANNELS e env = (.ok, []) := by
  rcases h with h | h
  · simp [handle_message, h]
  · cases hb : truthy e.bot_id with
    | true => simp [handle_message, hb]
    | false =>
        cases hch : e.channel with
        | none => simp [handle_message, hb, hch]
        | some ch => simp [handle_message, hb, hch, h ch hch]

/-- Witness for the amended C2 at a concrete bot-originated event. -/
theorem c2_filtered_events_no_effects_witness :
    truthy evBot.bot_id = true ∧
    handle_message CHANNELS evBot (envAllOk .timeout) = (.ok, []) :=
  ⟨by decide,
    c2_filtered_events_no_effects evBot (envAllOk .timeout) (Or.inl (by decide))⟩

/-- Claim C9: an event passing the filter whose `text` field is absent is
still forwarded, with `message_text` defaulted to the empty string. -/
theorem c9_missing_text_defaults_empty (e : Event) (env : Env) (ch : String)
    (hf : passesFilter CHANNELS e = true)
    (hch : e.channel = some ch) (ht : e.text = none) :
    webhookPosts (handle_message CHANNELS e env).2 = [(ch, "")] := by
  obtain ⟨hb, ch', nm, hch', hnm⟩ := passesFilter_elim e hf
  rw [hch] at hch'
  obtain rfl := Option.some.inj hch'
  rw [handle_message_eq_tracked e env ch nm hb hch hnm, ht]
  exact webhookPosts_handleTracked ch nm "" e.ts env

/-- Witness for C9 at a concrete text-less event. -/
theorem c9_missing_text_defaults_empty_witness :
    passesFilter CHANNELS evNoText = true ∧ evNoText.text = none ∧
    webhookPosts (handle_message CHANNELS evNoText (envAllOk .timeout)).2
      = [("C09NAV7HT26", "")] :=
  ⟨by decide, rfl,
    c9_missing_text_defaults_empty evNoText (envAllOk .timeout) "C09NAV7HT26"
      (by decide) rfl rfl⟩

/-- Claim C3, counterexample: with a 200 response carrying
`{"response": "hello"}`, if the hourglass-removal call fails then the
checkmark add is never attempted (the exception skips it), even though the
reply "hello" is posted - so the handler does not always attempt to add a
checkmark reaction. -/
theorem c3_checkmark_counterexample :
    postedMessages (handle_message CHANNELS evOk (envRemoveFails helloBody)).2
      = ["hello"] ∧
    removeAttempts (handle_message CHANNELS evOk (envRemoveFails helloBody)).2
      = 1 ∧
    checkmarkAttempts (handle_message CHANNELS evOk (envRemoveFails helloBody)).2
      = 0 := by
  refine ⟨by decide, by decide, by decide⟩

/-- Claim C3 (amended): with a 200 response carrying `{"response": "hello"}`
and a successful reply post, exactly one message "hello" is posted, the
hourglass removal is attempted, and the checkmark add is attempted exactly
when the removal succeeded; reaction failures never change the posted
message or the normal return. -/
theorem c3_success_reply_and_reactions (e : Event) (env : Env)
    (entries : List (String × String)) (raw : String)
    (hf : passesFilter CHANNELS e = true)
    (hw : env.webhook = .response 200 (.dict entries) raw)
    (hr : lookupAssoc entries "response" = some "hello")
    (hs : env.sayOk 0 = true) :
    postedMessages (handle_message CHANNELS e env).2 = ["hello"] ∧
    removeAttempts (handle_message CHANNELS e env).2 = 1 ∧
    checkmarkAttempts (handle_message CHANNELS e env).2
      = (if env.removeHourglassOk then 1 else 0) ∧
    (handle_message CHANNELS e env).1 = .ok := by
  obtain ⟨hb, ch, nm, hch, hnm⟩ := passesFilter_elim e hf
  rw [handle_message_eq_tracked e env ch nm hb hch hnm]
  cases hah : env.addHourglassOk <;> cases hrh : env.removeHourglassOk <;>
    simp [handleTracked, hw, hr, hs, hah, hrh, postedMessages, removeAttempts,
      checkmarkAttempts, List.countP_cons, List.countP_append,
      List.filterMap_append]

/-- Witness for the amended C3 at a concrete event and environment. -/
theorem c3_success_reply_and_reactions_witness :
    passesFilter CHANNELS evOk = true ∧
    (postedMessages (handle_message CHANNELS evOk (envAllOk helloBody)).2
        = ["hello"] ∧
      removeAttempts (handle_message CHANNELS evOk (envAllOk helloBody)).2 = 1 ∧
      checkmarkAttempts (handle_message CHANNELS evOk (envAllOk helloBody)).2
        = (if (envAllOk helloBody).removeHourglassOk then 1 else 0) ∧
      (handle_message CHANNELS evOk (envAllOk helloBody)).1 = .ok) :=
  ⟨by decide,
    c3_success_reply_and_reactions evOk (envAllOk helloBody)
      [("response", "hello")] "" (by decide) rfl (by decide) rfl⟩

/-- Claim C4: with a 200 response whose JSON body is the empty object, the
posted message is the fixed fallback string. -/
theorem c4_fallback_reply (e : Event) (env : Env) (raw : String)
    (hf : passesFilter CHANNELS e = true)
    (hw : env.webhook = .response 200 (.dict []) raw)
    (hs : env.sayOk 0 = true) :
    postedMessages (handle_message CHANNELS e env).2 = [fallbackReply] := by
  obtain ⟨hb, ch, nm, hch, hnm⟩ := passesFilter_elim e hf
  rw [handle_message_eq_tracked e env ch nm hb hch hnm]
  cases hah : env.addHourglassOk <;> cases hrh : env.removeHourglassOk <;>
    simp [handleTracked, hw, hs, hah, hrh, lookupAssoc, postedMessages,
      List.filterMap_append]

/-- Witness for C4 at a concrete event and environment. -/
theorem c4_fallback_reply_witness :
    passesFilter CHANNELS evOk = true ∧
    postedMessages
        (handle_message CHANNELS evOk
          (envAllOk (.response 200 (.dict []) ""))).2
      = [fallbackReply] :=
  ⟨by decide,
    c4_fallback_reply evOk (envAllOk (.response 200 (.dict []) "")) ""
      (by decide) rfl rfl⟩

/-- Claim C5, counterexample: when the webhook times out and the `say` call
reporting the failure itself fails, the handler lets that exception escape
and posts nothing - the error-reporting post is not protected by any
handler. -/
theorem c5_escape_counterexample :
    (handle_message CHANNELS evOk (envSayFails .timeout)).1
      = .raised "slack api down" ∧
    postedMessages (handle_message CHANNELS evOk (envSayFails .timeout)).2
      = [] := by
  refine ⟨rfl, by decide⟩

/-- Claim C5 (amended): for every event passing the filter and every
failure of the mandatory forward-and-reply flow (timeout, non-200 status,
transport error, unusable 200 body, or a failure of the reply post itself),
the handler catches the failure; provided the error-reporting `say` call
succeeds, it posts a user-visible message and returns normally. If that
error-reporting post itself fails, its exception escapes the handler. -/
theorem c5_failures_reported (e : Event) (env : Env)
    (hf : passesFilter CHANNELS e = true)
    (hfail : isForwardReplyFailure env = true)
    (hsay : errorSayOk env = true) :
    (handle_message CHANNELS e env).1 = .ok ∧
    postedMessages (handle_message CHANNELS e env).2 ≠ [] := by
  obtain ⟨hb, ch, nm, hch, hnm⟩ := passesFilter_elim e hf
  rw [handle_message_eq_tracked e env ch nm hb hch hnm]
  cases hwc : env.webhook with
  | timeout =>
      have hs0 : env.sayOk 0 = true := by simpa [errorSayOk, hwc] using hsay
      cases hah : env.addHourglassOk <;>
        simp [handleTracked, hwc, hs0, hah, postedMessages,
          List.filterMap_append]
  | transportError d =>
      have hs0 : env.sayOk 0 = true := by simpa [errorSayOk, hwc] using hsay
      cases hah : env.addHourglassOk <;>
        simp [handleTracked, hwc, hs0, hah, postedMessages,
          List.filterMap_append]
  | response s b raw =>
      by_cases hs200 : s = 200
      · subst hs200
        cases b with
        | malformed d =>
            have hs0 : env.sayOk 0 = true := by
              simpa [errorSayOk, hwc] using hsay
            cases hah : env.addHourglassOk <;>
              simp [handleTracked, hwc, hs0, hah, postedMessages,
                List.filterMap_append]
        | notDict d =>
            have hs0 : env.sayOk 0 = true := by
              simpa [errorSayOk, hwc] using hsay
            cases hah : env.addHourglassOk <;>
              simp [handleTracked, hwc, hs0, hah, postedMessages,
                List.filterMap_append]
        | dict entries =>
            have hf0 : env.sayOk 0 = false := by
              simpa [isForwardReplyFailure, hwc] using hfail
            have hs1 : env.sayOk 1 = true := by
              simpa [errorSayOk, hwc] using hsay
            cases hah : env.addHourglassOk <;>
              simp [handleTracked, hwc, hf0, hs1, hah, postedMessages,
                List.filterMap_append]
      · have hs0 : env.sayOk 0 = true := by
          simpa [errorSayOk, hwc, hs200] using hsay
        cases hah : env.addHourglassOk <;>
          simp [handleTracked, hwc, hs200, hs0, hah, postedMessages,
            List.filterMap_append]

/-- Witness for the amended C5: a timing-out webhook with a working `say`. -/
theorem c5_failures_reported_witness :
    passesFilter CHANNELS evOk = true ∧
    isForwardReplyFailure (envAllOk .timeout) = true ∧
    ((handle_message CHANNELS evOk (envAllOk .timeout)).1 = .ok ∧
      postedMessages (handle_message CHANNELS evOk (envAllOk .timeout)).2 ≠ []) :=
  ⟨by decide, rfl,
    c5_failures_reported evOk (envAllOk .timeout) (by decide) rfl rfl⟩

/-- Claim C6: when the webhook call times out (and the notice is
deliverable), the posted message is exactly the timeout notice suggesting a
retry, and no reaction cleanup - neither the hourglass removal nor the
checkmark add - is attempted. -/
theorem c6_timeout_notice (e : Event) (env : Env)
    (hf : passesFilter CHANNELS e = true)
    (hw : env.webhook = .timeout)
    (hs : env.sayOk 0 = true) :
    postedMessages (handle_message CHANNELS e env).2
      = ["⏰ Request timed out - Gumloop took too long. Try again?"] ∧
    removeAttempts (handle_message CHANNELS e env).2 = 0 ∧
    checkmarkAttempts (handle_message CHANNELS e env).2 = 0 := by
  obtain ⟨hb, ch, nm, hch, hnm⟩ := passesFilter_elim e hf
  rw [handle_message_eq_tracked e env ch nm hb hch hnm]
  cases hah : env.addHourglassOk <;>
    simp [handleTracked, hw, hs, hah, postedMessages, removeAttempts,
      checkmarkAttempts, List.countP_cons, List.countP_append,
      List.filterMap_append]

/-- Witness for C6 at a concrete event and environment. -/
theorem c6_timeout_notice_witness :
    passesFilter CHANNELS evOk = true ∧
    (postedMessages (handle_message CHANNELS evOk (envAllOk .timeout)).2
        = ["⏰ Request timed out - Gumloop took too long. Try again?"] ∧
      removeAttempts (handle_message CHANNELS evOk (envAllOk .timeout)).2 = 0 ∧
      checkmarkAttempts (handle_message CHANNELS evOk (envAllOk .timeout)).2 = 0) :=
  ⟨by decide, c6_timeout_notice evOk (envAllOk .timeout) (by decide) rfl rfl⟩

/-- Claim C7: when the webhook answers with a status other than 200 (e.g.
500), the posted message is the error notice carrying the literal decimal
status code, the response body is logged, and no reply text from the body
is posted (the posted list is exactly that one notice). -/
theorem c7_http_error_status (e : Event) (env : Env) (s : Nat)
    (body : JsonBody) (raw : String)
    (hf : passesFilter CHANNELS e = true)
    (hw : env.webhook = .response s body raw)
    (hne : s ≠ 200)
    (hs : env.sayOk 0 = true) :
    postedMessages (handle_message CHANNELS e env).2
      = ["⚠️ Gumloop returned error: " ++ toString s] ∧
    Effect.logError ("Gumloop error: " ++ raw)
      ∈ (handle_message CHANNELS e env).2 := by
  obtain ⟨hb, ch, nm, hch, hnm⟩ := passesFilter_elim e hf
  rw [handle_message_eq_tracked e env ch nm hb hch hnm]
  cases hah : env.addHourglassOk <;>
    simp [handleTracked, hw, hne, hs, hah, postedMessages,
      List.filterMap_append]

/-- Witness for C7 at a concrete 500 response: the notice contains the
literal digits 500. -/
theorem c7_http_error_status_witness :
    passesFilter CHANNELS evOk = true ∧ (500 : Nat) ≠ 200 ∧
    (postedMessages
        (handle_message CHANNELS evOk
          (envAllOk (.response 500 (.dict []) "Internal Server Error"))).2
      = ["⚠️ Gumloop returned error: 500"] ∧
    Effect.logError ("Gumloop error: " ++ "Internal Server Error")
      ∈ (handle_message CHANNELS evOk
          (envAllOk (.response 500 (.dict []) "Internal Server Error"))).2) :=
  ⟨by decide, by decide,
    c7_http_error_status evOk
      (envAllOk (.response 500 (.dict []) "Internal Server Error"))
      500 (.dict []) "Internal Server Error" (by decide) rfl (by decide) rfl⟩

/-- Two environments that agree on the webhook outcome and on the `say`
oracle - and may disagree arbitrarily on reaction success - drive the
tracked body to the same result, the same webhook POSTs and the same
posted messages. -/
lemma handleTracked_reaction_independent (ch nm mt ts : String)
    (env1 env2 : Env)
    (hw : env1.webhook = env2.webhook) (hs : env1.sayOk = env2.sayOk)
    (he : env1.sayErr = env2.sayErr) :
    (handleTracked ch nm mt ts env1).1 = (handleTracked ch nm mt ts env2).1 ∧
    webhookPosts (handleTracked ch nm mt ts env1).2
      = webhookPosts (handleTracked ch nm mt ts env2).2 ∧
    postedMessages (handleTracked ch nm mt ts env1).2
      = postedMessages (handleTracked ch nm mt ts env2).2 := by
  cases hwc : env2.webhook with
  | timeout =>
      cases h0 : env2.sayOk 0 <;>
        cases hah1 : env1.addHourglassOk <;> cases hah2 : env2.addHourglassOk <;>
          simp [handleTracked, hw, hs, he, hwc, h0, hah1, hah2,
            postedMessages, webhookPosts, List.filterMap_append]
  | transportError d =>
      cases h0 : env2.sayOk 0 <;>
        cases hah1 : env1.addHourglassOk <;> cases hah2 : env2.addHourglassOk <;>
          simp [handleTracked, hw, hs, he, hwc, h0, hah1, hah2,
            postedMessages, webhookPosts, List.filterMap_append]
  | response s b raw =>
      by_cases hs200 : s = 200
      · subst hs200
        cases b with
        | malformed d =>
            cases h0 : env2.sayOk 0 <;>
              cases hah1 : env1.addHourglassOk <;> cases hah2 : env2.addHourglassOk <;>
                simp [handleTracked, hw, hs, he, hwc, h0, hah1, hah2,
                  postedMessages, webhookPosts, List.filterMap_append]
        | notDict d =>
            cases h0 : env2.sayOk 0 <;>
              cases hah1 : env1.addHourglassOk <;> cases hah2 : env2.addHourglassOk <;>
                simp [handleTracked, hw, hs, he, hwc, h0, hah1, hah2,
                  postedMessages, webhookPosts, List.filterMap_append]
        | dict entries =>
            cases h0 : env2.sayOk 0 <;> cases h1 : env2.sayOk 1 <;>
              cases hah1 : env1.addHourglassOk <;> cases hah2 : env2.addHourglassOk <;>
                cases hrh1 : env1.removeHourglassOk <;> cases hrh2 : env2.removeHourglassOk <;>
                  simp [handleTracked, hw, hs, he, hwc, h0, h1, hah1, hah2,
                    hrh1, hrh2, postedMessages, webhookPosts,
                    List.filterMap_append]
      · cases h0 : env2.sayOk 0 <;> cases h1 : env2.sayOk 1 <;>
          cases hah1 : env1.addHourglassOk <;> cases hah2 : env2.addHourglassOk <;>
            simp [handleTracked, hw, hs, he, hwc, hs200, h0, h1, hah1, hah2,
              postedMessages, webhookPosts, List.filterMap_append]

/-- Claim C8: for an event passing the filter, the webhook call, the posted
reply and the handler result are identical across two runs that differ only
in the success or failure of the reaction calls (hourglass add, hourglass
remove, checkmark add). -/
theorem c8_reply_independent_of_reactions (e : Event) (env1 env2 : Env)
    (hf : passesFilter CHANNELS e = true)
    (hw : env1.webhook = env2.webhook) (hs : env1.sayOk = env2.sayOk)
    (he : env1.sayErr = env2.sayErr) :
    (handle_message CHANNELS e env1).1 = (handle_message CHANNELS e env2).1 ∧
    webhookPosts (handle_message CHANNELS e env1).2
      = webhookPosts (handle_message CHANNELS e env2).2 ∧
    postedMessages (handle_message CHANNELS e env1).2
      = postedMessages (handle_message CHANNELS e env2).2 := by
  obtain ⟨hb, ch, nm, hch, hnm⟩ := passesFilter_elim e hf
  rw [handle_message_eq_tracked e env1 ch nm hb hch hnm,
      handle_message_eq_tracked e env2 ch nm hb hch hnm]
  exact handleTracked_reaction_independent ch nm ((e.text).getD "") e.ts
    env1 env2 hw hs he

/-- Witness for C8: a run with all reactions succeeding against a run with
all reactions failing, same webhook response and same working `say`. -/
theorem c8_reply_independent_of_reactions_witness :
    passesFilter CHANNELS evOk = true ∧
    ((handle_message CHANNELS evOk (envAllOk helloBody)).1
        = (handle_message CHANNELS evOk (envAnnotFail helloBody)).1 ∧
      webhookPosts (handle_message CHANNELS evOk (envAllOk helloBody)).2
        = webhookPosts (handle_message CHANNELS evOk (envAnnotFail helloBody)).2 ∧
      postedMessages (handle_message CHANNELS evOk (envAllOk helloBody)).2
        = postedMessages (handle_message CHANNELS evOk (envAnnotFail helloBody)).2) :=
  ⟨by decide,
    c8_reply_independent_of_reactions evOk (envAllOk helloBody)
      (envAnnotFail helloBody) (by decide) rfl rfl rfl⟩

/-- Claim C10: a 200 response whose body is not a JSON object supporting
key lookup (unparseable JSON, or a JSON array/string) makes the handler
post the generic connection-error message carrying the exception detail,
never the fallback reply string. -/
theorem c10_bad_body_generic_error (e : Event) (env : Env) (d raw : String)
    (hf : passesFilter CHANNELS e = true)
    (hw : env.webhook = .response 200 (.malformed d) raw ∨
          env.webhook = .response 200 (.notDict d) raw)
    (hs : env.sayOk 0 = true) :
    postedMessages (handle_message CHANNELS e env).2
      = ["❌ Error connecting to AI: " ++ d] ∧
    fallbackReply ∉ postedMessages (handle_message CHANNELS e env).2 := by
  obtain ⟨hb, ch, nm, hch, hnm⟩ := passesFilter_elim e hf
  have hpost : postedMessages (handle_message CHANNELS e env).2
      = ["❌ Error connecting to AI: " ++ d] := by
    rw [handle_message_eq_tracked e env ch nm hb hch hnm]
    rcases hw with hw | hw <;>
      cases hah : env.addHourglassOk <;>
        simp [handleTracked, hw, hs, hah, postedMessages,
          List.filterMap_append]
  refine ⟨hpost, ?_⟩
  rw [hpost]
  simp only [List.mem_singleton]
  intro hEq
  exact generic_ne_fallback d hEq.symm

/-- Witness for C10 at a concrete unparseable body. -/
theorem c10_bad_body_generic_error_witness :
    passesFilter CHANNELS evOk = true ∧
    (postedMessages
        (handle_message CHANNELS evOk
          (envAllOk (.response 200
            (.malformed "Expecting value: line 1 column 1 (char 0)") "oops"))).2
      = ["❌ Error connecting to AI: "
          ++ "Expecting value: line 1 column 1 (char 0)"] ∧
    fallbackReply ∉ postedMessages
        (handle_message CHANNELS evOk
          (envAllOk (.response 200
            (.malformed "Expecting value: line 1 column 1 (char 0)") "oops"))).2) :=
  ⟨by decide,
    c10_bad_body_generic_error evOk
      (envAllOk (.response 200
        (.malformed "Expecting value: line 1 column 1 (char 0)") "oops"))
      "Expecting value: line 1 column 1 (char 0)" "oops"
      (by decide) (Or.inl rfl) rfl⟩
